import Mathlib

/-!
Verification of the incremental flight-discovery and download pipeline of the
`map` repository (OLC downloader).  Python dictionaries are modelled as
insertion-ordered association lists, machine floats that only ever undergo
order comparisons are modelled as rationals, timestamps are threaded as
explicit arguments, and each network interaction is modelled by an explicit
response value per attempt.
-/

namespace Spec2Proof

/-! ## Association lists: the model of Python `dict`

`alUpdate` mirrors `d[k] = v` (replace in place, else append, preserving
insertion order); `alErase` mirrors deletion / `unlink`. -/

def alUpdate {α : Type} (l : List (String × α)) (k : String) (v : α) :
    List (String × α) :=
  if l.any (fun kv => kv.1 = k) then
    l.map (fun kv => if kv.1 = k then (k, v) else kv)
  else
    l ++ [(k, v)]

def alErase {α : Type} (l : List (String × α)) (k : String) :
    List (String × α) :=
  l.filter (fun kv => kv.1 ≠ k)

/-! ## Processing State Store (`scripts/state_manager.py`) -/

/-- Value of `state["processed_dates"][date]`: the literal
`{"flights": [...], "satellite_tiles_generated": bool, "last_processed": ts}`. -/
structure DateState where
  flights : List String
  satellite_tiles_generated : Bool
  last_processed : Option String
deriving DecidableEq

/-- Value of `state["processed_flights"][filename]`: the literal
`{"date": str, "uploaded_to_r2": bool, "processed_at": ts}`. -/
structure FlightRecord where
  date : String
  uploaded_to_r2 : Bool
  processed_at : String
deriving DecidableEq

/-- The mutable `ProcessingState.state` document (the untouched
`airport_code` / `metadata` / `last_updated` fields are omitted). -/
structure PState where
  processed_flights : List (String × FlightRecord)
  processed_dates : List (String × DateState)
deriving DecidableEq

/-- Model of `_create_empty_state`: fresh document with empty dictionaries. -/
def emptyPState : PState := ⟨[], []⟩

/-- Model of `ProcessingState.is_flight_processed`: membership of the filename in the
`processed_flights` dictionary. -/
def is_flight_processed (s : PState) (flight_filename : String) : Bool :=
  (s.processed_flights.lookup flight_filename).isSome

/-- Model of `ProcessingState.is_date_processed`:
`self.state["processed_dates"].get(date_str, {}).get("satellite_tiles_generated", False)`. -/
def is_date_processed (s : PState) (date_str : String) : Bool :=
  match s.processed_dates.lookup date_str with
  | some ds => ds.satellite_tiles_generated
  | none => false

/-- Model of `ProcessingState.get_new_flights`:
`[f for f in all_flights if not self.is_flight_processed(f)]`. -/
def get_new_flights (s : PState) (all_flights : List String) : List String :=
  all_flights.filter (fun f => !is_flight_processed s f)

/-- The `if date_str not in self.state["processed_dates"]` guard shared by
both mark operations: create the fresh
`{"flights": [], "satellite_tiles_generated": False, "last_processed": None}`
entry when the date is absent. -/
def ensureDate (pd : List (String × DateState)) (date_str : String) :
    List (String × DateState) :=
  if (pd.lookup date_str).isSome then pd
  else pd ++ [(date_str, ⟨[], false, none⟩)]

/-- In-place mutation of the dictionary value stored at one key
(`d[k]["field"] = ...`): every entry with that key has its value adjusted,
all other entries are untouched. -/
def adjustDate (pd : List (String × DateState)) (date_str : String)
    (g : DateState → DateState) : List (String × DateState) :=
  pd.map (fun kv => if kv.1 = date_str then (kv.1, g kv.2) else kv)

/-- Model of `ProcessingState.mark_flight_processed`: overwrite the
`processed_flights[filename]` record, create the date entry if absent
(with `satellite_tiles_generated = False`), and append the filename to that
date's `flights` list when it is not already in it.  `now` is the
`datetime.utcnow().isoformat()` timestamp. -/
def mark_flight_processed (s : PState) (flight_filename date_str : String)
    (uploaded_to_r2 : Bool) (now : String) : PState :=
  ⟨alUpdate s.processed_flights flight_filename ⟨date_str, uploaded_to_r2, now⟩,
   adjustDate (ensureDate s.processed_dates date_str) date_str (fun ds =>
     if ds.flights.contains flight_filename then ds
     else { ds with flights := ds.flights ++ [flight_filename] })⟩

/-- Model of `ProcessingState.mark_date_processed`: create the date entry if absent,
then set `satellite_tiles_generated` and `last_processed`. -/
def mark_date_processed (s : PState) (date_str : String)
    (satellite_tiles_generated : Bool) (now : String) : PState :=
  ⟨s.processed_flights,
   adjustDate (ensureDate s.processed_dates date_str) date_str (fun ds =>
     { ds with satellite_tiles_generated := satellite_tiles_generated,
               last_processed := some now })⟩

/-- Model of `ProcessingState.get_flights_for_date`:
`self.state["processed_dates"].get(date_str, {}).get("flights", [])`. -/
def get_flights_for_date (s : PState) (date_str : String) : List String :=
  match s.processed_dates.lookup date_str with
  | some ds => ds.flights
  | none => []

/-- The per-date list invariant: no date's `flights` list contains a
duplicate filename. -/
def datesNodup (s : PState) : Prop :=
  ∀ kv ∈ s.processed_dates, kv.2.flights.Nodup

instance (s : PState) : Decidable (datesNodup s) :=
  List.decidableBAll _ s.processed_dates

/-! ## Session Authenticator (`src/olc_downloader/auth.py`)

The network phase of `login` (fetch login page, parse form, post
credentials, look for the logged-in marker) is collapsed into a single
`LoginOutcome` describing whether that phase succeeds or raises
`AuthenticationError`; in the source every failure mode of the network
phase raises after the two credential assignments at the top of `login`. -/

/-- Result of the network phase of one `login` attempt. -/
inductive LoginOutcome where
  | success
  | failure
deriving DecidableEq

/-- The `AuthenticationError` variants distinguished by their messages. -/
inductive AuthErr where
  | loginFailed
  | noCredentials
  | notAuthenticated
deriving DecidableEq

/-- Mutable fields of `OLCAuthenticator`.  `sessionGen` counts how many
`requests.Session()` objects have been created (it increases exactly when
the code replaces `self.session`). -/
structure AuthSt where
  username : Option String
  password : Option String
  authenticated : Bool
  sessionGen : Nat
deriving DecidableEq

/-- Model of `OLCAuthenticator.__init__`: no credentials, not authenticated, one
fresh session object. -/
def emptyAuth : AuthSt := ⟨none, none, false, 0⟩

/-- Model of `OLCAuthenticator.login`: stores the supplied credentials in
`self._username` / `self._password` first, then runs the network phase,
which either marks the session authenticated and returns `True` or raises
`AuthenticationError`. -/
def login (st : AuthSt) (u p : String) (out : LoginOutcome) :
    AuthSt × Except AuthErr Bool :=
  let st1 := { st with username := some u, password := some p }
  match out with
  | .success => ({ st1 with authenticated := true }, .ok true)
  | .failure => (st1, .error .loginFailed)

/-- Model of `OLCAuthenticator.refresh_session`: raises `AuthenticationError`
("no credentials stored") when either stored credential is falsy
(`None` or empty), otherwise replaces the session object, clears
`authenticated` and re-runs `login` with the stored credentials. -/
def refresh_session (st : AuthSt) (out : LoginOutcome) :
    AuthSt × Except AuthErr Bool :=
  match st.username, st.password with
  | some u, some p =>
    if u.isEmpty || p.isEmpty then (st, .error .noCredentials)
    else login { st with sessionGen := st.sessionGen + 1,
                         authenticated := false } u p out
  | _, _ => (st, .error .noCredentials)

/-! ## Filename derivation (`spiders/airport_spider.py`, `parse_flightinfo`)

The sanitization acts characterwise, so it is modelled on `List Char`:
`str.replace` with single-character patterns is a character map and the
generator-expression join is a character filter. -/

/-- Characters kept by the final filter:
`c.isalnum() or c in ("_", "-", "(", ")")`. -/
def keepChar (c : Char) : Bool :=
  c.isAlphanum || c = '_' || c = '-' || c = '(' || c = ')'

/-- The source's sanitization pipeline on the pilot name:
`pilot.replace(" ", "_").replace("/", "-").replace("\\", "-")` followed by
`"".join(c for c in safe_pilot if c.isalnum() or c in ("_","-","(",")"))`. -/
def sanitizePilotL (cs : List Char) : List Char :=
  let s1 := cs.map (fun c => if c = ' ' then '_' else c)
  let s2 := s1.map (fun c => if c = '/' then '-' else c)
  let s3 := s2.map (fun c => if c = '\\' then '-' else c)
  s3.filter keepChar

def sanitizePilot (pilot : String) : String := ⟨sanitizePilotL pilot.data⟩

/-- Model of the filename derived in `parse_flightinfo`:
`f"{year}_{safe_pilot}_{flight_id}.igc"`. -/
def derivedFilename (year pilot flight_id : String) : String :=
  year ++ "_" ++ sanitizePilot pilot ++ "_" ++ flight_id ++ ".igc"

/-- Sanitization as the spec sentence describes it: keep only
alphanumerics, `_`, `-`, `(`, `)`, and map spaces to `_` (nothing is said
about any other character, so everything else is dropped by the filter). -/
def specSanitizePilot (pilot : String) : String :=
  ⟨(pilot.data.map (fun c => if c = ' ' then '_' else c)).filter keepChar⟩

/-- Sanitization as amended: map spaces to `_` and both slashes to `-`,
then keep only alphanumerics, `_`, `-`, `(`, `)`. -/
def amendedSanitizePilot (pilot : String) : String :=
  ⟨(pilot.data.map (fun c =>
      if c = ' ' then '_'
      else if c = '/' then '-'
      else if c = '\\' then '-'
      else c)).filter keepChar⟩

/-! ## Listing filter (`spiders/airport_spider.py`, `parse_json_batch`)

One JSON listing row, reduced to the fields the batch parser consults
before deciding whether to issue the per-flight `flightinfo.html` detail
request.  `id` is `none` when the field is missing or falsy; `points` is
the result of the `float(...)` parse (`none` when the field is absent or
unparsable). -/

structure JsonRow where
  id : Option String
  points : Option ℚ

/-- Whether `parse_json_batch` issues a `flightinfo` detail request for
one row: the row is skipped when its id is missing/falsy, when the id was
already downloaded, or — when a `min_points` filter is set — when the
parsed points are absent or strictly below the threshold. -/
def rowEmitsDetailRequest (downloaded_dsids : List String)
    (min_points : Option ℚ) (row : JsonRow) : Bool :=
  match row.id with
  | none => false
  | some dsid =>
    if dsid.isEmpty then false
    else if downloaded_dsids.contains dsid then false
    else
      match min_points with
      | none => true
      | some m =>
        match row.points with
        | none => false
        | some p => !(p < m)

/-- The `flightinfo` requests emitted for a whole batch, as the list of
dsids followed, in row order. -/
def batchDetailRequests (downloaded_dsids : List String)
    (min_points : Option ℚ) (rows : List JsonRow) : List String :=
  rows.filterMap (fun row =>
    if rowEmitsDetailRequest downloaded_dsids min_points row then row.id
    else none)

/-! ## Download Manager (`src/olc_downloader/downloader.py`)

The HTTP layer is modelled by one `Resp` value per attempt: `ok lines` is
a 2xx response whose content-type is not HTML, carrying the body as a list
of lines; `html body` is a 2xx response with content-type `text/html`;
`httpError status` is a response on which `raise_for_status()` raises;
`timeout` is `requests.Timeout`.  The destination path is assumed absent
when `_download_file` is entered (the caller only enters it for absent
files unless `force` is set, and every failure branch unlinks the path),
so the file on disk is tracked as an `Option (List String)`. -/

inductive Resp where
  | ok (lines : List String)
  | html (body : String)
  | httpError (status : Nat)
  | timeout

/-- Substring containment, the model of Python's `in` on strings. -/
def strContains (s pat : String) : Bool :=
  decide (pat.data <:+: s.data)

/-- Python's `str.lower()` (characterwise). -/
def strLower (s : String) : String :=
  ⟨s.data.map Char.toLower⟩

/-- Python's `str.strip()`: drop leading and trailing whitespace. -/
def pyStrip (s : String) : String :=
  ⟨((s.data.dropWhile Char.isWhitespace).reverse.dropWhile
      Char.isWhitespace).reverse⟩

/-- Python's `str.startswith(pre)`. -/
def strStartsWith (s pre : String) : Bool :=
  pre.data.isPrefixOf s.data

/-- The rate-limit marker test on an HTML body:
`"download limitation" in html_content.lower() or "downloadlimit" in html_content.lower()`. -/
def hasRateLimitMarker (body : String) : Bool :=
  strContains (strLower body) "download limitation" ||
    strContains (strLower body) "downloadlimit"

/-- Model of `_validate_igc_file` as a predicate on the downloaded body: the
stripped first line must not open an HTML document and must start with an
`A` or `H` record. -/
def validIgcContent (lines : List String) : Bool :=
  let l := pyStrip (lines.headD "")
  if strStartsWith l "<!DOCTYPE" || strStartsWith l "<html" then false
  else strStartsWith l "A" || strStartsWith l "H"

/-- The HTML-error-page test `download_flights` applies to a pre-existing
destination file: stripped first line starts with `<!DOCTYPE` or `<html`. -/
def isHtmlErrorFile (lines : List String) : Bool :=
  let l := pyStrip (lines.headD "")
  strStartsWith l "<!DOCTYPE" || strStartsWith l "<html"

/-- How `_download_file` terminates for one flight. -/
inductive FileOutcome where
  | ok
  | downloadFailed
  | rateLimited
deriving DecidableEq

/-- Observable behaviour of one `_download_file` call: its outcome, the
number of attempts entered, the backoff sleeps performed (in seconds), the
number of invalid downloaded files deleted after failed validation, and
the content left at the destination path. -/
structure DLResult where
  outcome : FileOutcome
  attemptsUsed : Nat
  sleeps : List Nat
  invalidDeleted : Nat
  written : Option (List String)
deriving DecidableEq

/-- The retry loop body of `_download_file`.  `fuel` is the number of
remaining iterations of `for attempt in range(self.max_retries)`;
`attempt` is the current 0-based index.  Before every attempt but the
first the loop sleeps `2 ** attempt` seconds. -/
def dlGo (resp : Nat → Resp) (attempt : Nat) (sleeps : List Nat)
    (deleted : Nat) : Nat → DLResult
  | 0 => ⟨.downloadFailed, attempt, sleeps, deleted, none⟩
  | fuel + 1 =>
    let sleeps := if attempt > 0 then sleeps ++ [2 ^ attempt] else sleeps
    match resp attempt with
    | .html body =>
      if hasRateLimitMarker body then
        ⟨.rateLimited, attempt + 1, sleeps, deleted, none⟩
      else
        dlGo resp (attempt + 1) sleeps deleted fuel
    | .timeout =>
      dlGo resp (attempt + 1) sleeps deleted fuel
    | .httpError status =>
      if status ≥ 500 then dlGo resp (attempt + 1) sleeps deleted fuel
      else ⟨.downloadFailed, attempt + 1, sleeps, deleted, none⟩
    | .ok lines =>
      if validIgcContent lines then
        ⟨.ok, attempt + 1, sleeps, deleted, some lines⟩
      else
        dlGo resp (attempt + 1) sleeps (deleted + 1) fuel

/-- Model of `_download_file` for one flight, given the response each attempt
receives. -/
def download_file (resp : Nat → Resp) (max_retries : Nat) : DLResult :=
  dlGo resp 0 [] 0 max_retries

/-- One flight as seen by `download_flights`: its derived filename and
the response the server gives to each download attempt. -/
structure Flight where
  filename : String
  resp : Nat → Resp

/-- The statistics dictionary of `download_flights`. -/
structure Stats where
  total : Nat
  downloaded : Nat
  skipped : Nat
  failed : Nat
deriving DecidableEq

/-- The filesystem under the year directory: filename → file lines. -/
def FS : Type := List (String × List String)

instance : DecidableEq FS := inferInstanceAs (DecidableEq (List _))

/-- How a `download_flights` call ends: normally with the printed summary,
or by re-raising `RateLimitError` after printing the partial count. -/
inductive RunOut where
  | completed (stats : Stats) (fs : FS)
  | rateLimitAborted (stats : Stats) (fs : FS)
deriving DecidableEq

/-- The per-flight loop of `download_flights`: delete a pre-existing
destination file that is an HTML error page; skip a (still) existing file
unless `force`; otherwise run `_download_file` and count the outcome,
aborting the whole run on `RateLimitError`. -/
def goFlights (max_retries : Nat) (force : Bool) :
    List Flight → FS → Stats → RunOut
  | [], fs, st => .completed st fs
  | f :: rest, fs, st =>
    let fs1 :=
      match fs.lookup f.filename with
      | some lines => if isHtmlErrorFile lines then alErase fs f.filename else fs
      | none => fs
    if (fs1.lookup f.filename).isSome && !force then
      goFlights max_retries force rest fs1 { st with skipped := st.skipped + 1 }
    else
      let r := download_file f.resp max_retries
      match r.outcome with
      | .ok =>
        goFlights max_retries force rest
          (alUpdate fs1 f.filename (r.written.getD []))
          { st with downloaded := st.downloaded + 1 }
      | .downloadFailed =>
        goFlights max_retries force rest (alErase fs1 f.filename)
          { st with failed := st.failed + 1 }
      | .rateLimited =>
        .rateLimitAborted st (alErase fs1 f.filename)

/-- Model of `DownloadManager.download_flights` for one year's worth of flights:
`total` is computed up front, `dry_run` returns without touching the
filesystem, and otherwise the per-flight loop runs. -/
def download_flights (max_retries : Nat) (force dry_run : Bool)
    (flights : List Flight) (fs : FS) : RunOut :=
  let st0 : Stats := ⟨flights.length, 0, 0, 0⟩
  if dry_run then .completed st0 fs
  else goFlights max_retries force flights fs st0

/-- How the CLI run terminates: a normal summary, or — on
`RateLimitError` — the partial-count message followed by a graceful
`click.Abort` (no traceback, partial results kept). -/
inductive CliOutcome where
  | summarized (stats : Stats)
  | abortedSummarized (stats : Stats)
deriving DecidableEq

/-- The download command's handling of the loop result
(`cli.py`: `except RateLimitError: raise click.Abort()` around the
`download_flights` call). -/
def runDownloadCli (max_retries : Nat) (force dry_run : Bool)
    (flights : List Flight) (fs : FS) : CliOutcome :=
  match download_flights max_retries force dry_run flights fs with
  | .completed st _ => .summarized st
  | .rateLimitAborted st _ => .abortedSummarized st

/-! ## Helper lemmas on association lists -/

theorem lookup_alErase_self {α : Type} (l : List (String × α)) (k : String) :
    (alErase l k).lookup k = none := by
  simp [alErase]
  exact fun a b _ h hk => h hk.symm

theorem alErase_of_lookup_none {α : Type} (l : List (String × α)) (k : String)
    (h : l.lookup k = none) : alErase l k = l := by
  simp at h
  simp only [alErase, List.filter_eq_self]
  intro kv hmem
  simpa using fun he => h kv.1 kv.2 hmem he.symm

theorem adjustDate_lookup (pd : List (String × DateState)) (d : String)
    (g : DateState → DateState) (k : String) :
    (adjustDate pd d g).lookup k =
      if k = d then (pd.lookup k).map g else pd.lookup k := by
  induction pd with
  | nil => simp [adjustDate]
  | cons kv t ih =>
    obtain ⟨k1, v1⟩ := kv
    simp only [adjustDate, List.map_cons] at ih ⊢
    by_cases hd : k1 = d
    · rw [if_pos hd]
      by_cases hk : k = k1
      · subst hk
        rw [if_pos (hd : k = d)]
        simp only [List.lookup, beq_self_eq_true]
        rfl
      · have hb : (k == k1) = false := beq_eq_false_iff_ne.mpr hk
        simp only [List.lookup, hb]
        rw [ih]
    · rw [if_neg hd]
      by_cases hk : k = k1
      · subst hk
        rw [if_neg hd]
        simp only [List.lookup, beq_self_eq_true]
      · have hb : (k == k1) = false := beq_eq_false_iff_ne.mpr hk
        simp only [List.lookup, hb]
        rw [ih]

theorem lookup_append_single (t : List (String × DateState)) (d k : String)
    (e : DateState) :
    (t ++ [(d, e)]).lookup k =
      match t.lookup k with
      | some v => some v
      | none => if k = d then some e else none := by
  induction t with
  | nil =>
    simp only [List.nil_append, List.lookup]
    by_cases hk : k = d
    · simp [beq_iff_eq.mpr hk, hk]
    · simp [beq_eq_false_iff_ne.mpr hk, hk]
  | cons kv tl ih =>
    simp only [List.cons_append, List.lookup]
    cases hb : (k == kv.1) with
    | true => simp
    | false => exact ih

theorem ensureDate_lookup (pd : List (String × DateState)) (d k : String) :
    (ensureDate pd d).lookup k =
      if k = d then some ((pd.lookup d).getD ⟨[], false, none⟩)
      else pd.lookup k := by
  unfold ensureDate
  cases hl : pd.lookup d with
  | some v =>
    simp only [hl, Option.isSome_some, if_true]
    by_cases hk : k = d
    · subst hk; simp [hl]
    · rw [if_neg hk]
  | none =>
    simp only [hl, Option.isSome_none, Bool.false_eq_true, if_false]
    rw [lookup_append_single]
    by_cases hk : k = d
    · subst hk
      rw [hl]
      simp
    · rw [if_neg hk]
      cases hc : pd.lookup k with
      | some v => simp [hk]
      | none => simp [hk]

/-! ## Claim theorems -/

/-- C7: `get_new_flights` returns exactly those candidates that are not
recorded in `processed_flights`, in their original order (it is a sublist
of the candidates, and membership is candidate membership plus absence
from the processed ledger); in particular with processedFlights =
{"A.igc"} it maps ["A.igc", "B.igc"] to exactly ["B.igc"]. -/
theorem get_new_flights_spec :
    (∀ (s : PState) (cands : List String),
      (get_new_flights s cands).Sublist cands) ∧
    (∀ (s : PState) (cands : List String) (f : String),
      f ∈ get_new_flights s cands ↔
        f ∈ cands ∧ s.processed_flights.lookup f = none) ∧
    get_new_flights
      ⟨[("A.igc", ⟨"2024-07-01", true, "t0"⟩)], []⟩
      ["A.igc", "B.igc"] = ["B.igc"] := by
  refine ⟨fun s cands => List.filter_sublist _, fun s cands f => ?_, by decide⟩
  cases hl : s.processed_flights.lookup f <;>
    simp [get_new_flights, List.mem_filter, is_flight_processed, hl]

/-- C9: `mark_flight_processed` leaves the date-level "fully processed"
status of every date unchanged: `is_date_processed` reads exactly the
same value before and after, so it stays false unless
`mark_date_processed` is invoked separately. -/
theorem mark_flight_keeps_date_status (s : PState)
    (f d : String) (u : Bool) (now d2 : String) :
    is_date_processed (mark_flight_processed s f d u now) d2 =
      is_date_processed s d2 := by
  simp only [is_date_processed, mark_flight_processed]
  rw [adjustDate_lookup, ensureDate_lookup]
  by_cases h : d2 = d
  · subst h
    rw [if_pos rfl, if_pos rfl]
    cases hl : s.processed_dates.lookup d2 with
    | some ds =>
      simp only [hl, Option.getD_some, Option.map_some]
      by_cases hm : f ∈ ds.flights <;> simp [hm]
    | none =>
      simp only [hl, Option.getD_none, Option.map_some]
      simp
  · rw [if_neg h, if_neg h]

/-- C8 counterexample: re-marking the already-processed filename "A.igc"
with a different date argument does add it to a second date's flight
list — after marking it for 2024-07-01 and then for 2024-07-02 it appears
in both dates' lists. -/
theorem remark_new_date_adds_second_list :
    "A.igc" ∈ get_flights_for_date
      (mark_flight_processed
        (mark_flight_processed emptyPState "A.igc" "2024-07-01" true "t1")
        "A.igc" "2024-07-02" true "t2") "2024-07-01" ∧
    "A.igc" ∈ get_flights_for_date
      (mark_flight_processed
        (mark_flight_processed emptyPState "A.igc" "2024-07-01" true "t1")
        "A.igc" "2024-07-02" true "t2") "2024-07-02" ∧
    ("2024-07-01" : String) ≠ "2024-07-02" := by
  decide

/-- C8 amended: within each single date's flight list a filename appears
at most once — re-marking with the same date does not duplicate the dated
list entry (both mark operations preserve the no-duplicates invariant of
every date's flight list) — but re-marking with a different date also
appends the filename to the new date's list. -/
theorem marks_preserve_date_list_nodup :
    ∀ (s : PState) (f d : String) (u : Bool) (now d2 : String)
      (stg : Bool) (now2 : String),
      datesNodup s →
      datesNodup (mark_flight_processed s f d u now) ∧
      datesNodup (mark_date_processed s d2 stg now2) := by
  intro s f d u now d2 stg now2 h
  constructor
  · intro kv hkv
    simp only [mark_flight_processed, adjustDate, List.mem_map] at hkv
    obtain ⟨kv1, hkv1, heq⟩ := hkv
    have hsrc : kv1 ∈ s.processed_dates ∨ kv1 = (d, ⟨[], false, none⟩) := by
      unfold ensureDate at hkv1
      split at hkv1
      · exact Or.inl hkv1
      · rcases List.mem_append.mp hkv1 with h1 | h1
        · exact Or.inl h1
        · exact Or.inr (by simpa using h1)
    have hnd : kv1.2.flights.Nodup := by
      rcases hsrc with h1 | h1
      · exact h kv1 h1
      · rw [h1]; exact List.nodup_nil
    by_cases hd : kv1.1 = d
    · rw [← heq, if_pos hd]
      by_cases hm : f ∈ kv1.2.flights
      · simpa [hm] using hnd
      · simp [hm, List.nodup_append, hnd]
    · rw [← heq, if_neg hd]
      exact hnd
  · intro kv hkv
    simp only [mark_date_processed, adjustDate, List.mem_map] at hkv
    obtain ⟨kv1, hkv1, heq⟩ := hkv
    have hsrc : kv1 ∈ s.processed_dates ∨ kv1 = (d2, ⟨[], false, none⟩) := by
      unfold ensureDate at hkv1
      split at hkv1
      · exact Or.inl hkv1
      · rcases List.mem_append.mp hkv1 with h1 | h1
        · exact Or.inl h1
        · exact Or.inr (by simpa using h1)
    have hnd : kv1.2.flights.Nodup := by
      rcases hsrc with h1 | h1
      · exact h kv1 h1
      · rw [h1]; exact List.nodup_nil
    by_cases hd : kv1.1 = d2
    · rw [← heq, if_pos hd]
      exact hnd
    · rw [← heq, if_neg hd]
      exact hnd

/-- C8 amended, witness: the preservation theorem applied to the empty
state. -/
theorem marks_preserve_date_list_nodup_witness :
    datesNodup emptyPState ∧
    (datesNodup
        (mark_flight_processed emptyPState "A.igc" "2024-07-01" true "t1") ∧
      datesNodup (mark_date_processed emptyPState "2024-07-02" true "t2")) :=
  ⟨by decide,
   marks_preserve_date_list_nodup emptyPState "A.igc" "2024-07-01" true "t1"
     "2024-07-02" true "t2" (by decide)⟩

/-- C10 counterexample: a failed login attempt with an empty-string
password stores the credentials, yet the subsequent `refresh_session`
still raises the "no credentials stored" `AuthenticationError`, because
the guard tests Python truthiness and the empty string is falsy. -/
theorem refresh_after_failed_login_counterexample :
    (login emptyAuth "user" "" .failure).2 = .error .loginFailed ∧
    (login emptyAuth "user" "" .failure).1.username = some "user" ∧
    (login emptyAuth "user" "" .failure).1.password = some "" ∧
    (refresh_session (login emptyAuth "user" "" .failure).1 .success).2 =
      .error .noCredentials := by
  refine ⟨rfl, rfl, rfl, rfl⟩

/-- C10 amended: provided both supplied credentials are non-empty,
`login` stores them before the network phase, so after a login attempt
that raised `AuthenticationError` a subsequent `refresh_session` does not
raise the "no credentials stored" error but re-runs `login` (on a fresh,
unauthenticated session) with the stored credentials. -/
theorem login_stores_credentials_for_refresh :
    ∀ (st : AuthSt) (u p : String) (o o2 : LoginOutcome),
      u ≠ "" → p ≠ "" →
      ((login st u p o).1.username = some u ∧
        (login st u p o).1.password = some p) ∧
      refresh_session (login st u p o).1 o2 =
        login { (login st u p o).1 with
                  sessionGen := (login st u p o).1.sessionGen + 1,
                  authenticated := false } u p o2 ∧
      (refresh_session (login st u p o).1 o2).2 ≠ .error .noCredentials := by
  intro st u p o o2 hu hp
  have hu2 : u.isEmpty = false := by
    cases he : u.isEmpty
    · rfl
    · exact absurd ((String.isEmpty_iff u).mp he) hu
  have hp2 : p.isEmpty = false := by
    cases he : p.isEmpty
    · rfl
    · exact absurd ((String.isEmpty_iff p).mp he) hp
  cases o <;> cases o2 <;>
    simp [login, refresh_session, hu2, hp2]

/-- C10 amended, witness: the theorem at concrete non-empty credentials
and a failing first login. -/
theorem login_stores_credentials_for_refresh_witness :
    ("user" : String) ≠ "" ∧ ("pass" : String) ≠ "" ∧
    (((login emptyAuth "user" "pass" .failure).1.username = some "user" ∧
        (login emptyAuth "user" "pass" .failure).1.password = some "pass") ∧
      refresh_session (login emptyAuth "user" "pass" .failure).1 .success =
        login { (login emptyAuth "user" "pass" .failure).1 with
                  sessionGen :=
                    (login emptyAuth "user" "pass" .failure).1.sessionGen + 1,
                  authenticated := false } "user" "pass" .success ∧
      (refresh_session (login emptyAuth "user" "pass" .failure).1 .success).2 ≠
        .error .noCredentials) :=
  ⟨by decide, by decide,
   login_stores_credentials_for_refresh emptyAuth "user" "pass" .failure
     .success (by decide) (by decide)⟩

theorem sanitizePilotL_eq (cs : List Char) :
    sanitizePilotL cs =
      (cs.map (fun c =>
        if c = ' ' then '_'
        else if c = '/' then '-'
        else if c = '\\' then '-'
        else c)).filter keepChar := by
  unfold sanitizePilotL
  simp only [List.map_map]
  congr 1
  congr 1
  funext c
  by_cases h1 : c = ' '
  · subst h1; decide
  · by_cases h2 : c = '/'
    · subst h2; decide
    · by_cases h3 : c = '\\'
      · subst h3; decide
      · simp [Function.comp, h1, h2, h3]

/-- C2 counterexample: the code maps a slash in the pilot name to `-`
before filtering, while the claimed sanitization rule (keep only
alphanumerics, `_`, `-`, `(`, `)`; spaces to `_`) would drop it, so for
pilot "Jane/Doe" the derived filename differs from the claimed one. -/
theorem filename_derivation_counterexample :
    derivedFilename "2025" "Jane/Doe" "42" ≠
      "2025" ++ "_" ++ specSanitizePilot "Jane/Doe" ++ "_" ++ "42" ++ ".igc" ∧
    derivedFilename "2025" "Jane/Doe" "42" = "2025_Jane-Doe_42.igc" ∧
    "2025" ++ "_" ++ specSanitizePilot "Jane/Doe" ++ "_" ++ "42" ++ ".igc" =
      "2025_JaneDoe_42.igc" := by
  decide

/-- C2 amended: the derived filename is
`{year}_{sanitizedPilot}_{identifier}.igc` where sanitization maps spaces
to `_` and both slash characters to `-`, then keeps only alphanumerics,
`_`, `-`, `(`, `)`; in particular for year "2025", pilot "Jane Q. Doe",
identifier "-1818431339" it is exactly `2025_Jane_Q_Doe_-1818431339.igc`. -/
theorem derivedFilename_amended :
    (∀ (year pilot flight_id : String),
      derivedFilename year pilot flight_id =
        year ++ "_" ++ amendedSanitizePilot pilot ++ "_" ++ flight_id ++
          ".igc") ∧
    derivedFilename "2025" "Jane Q. Doe" "-1818431339" =
      "2025_Jane_Q_Doe_-1818431339.igc" := by
  constructor
  · intro year pilot flight_id
    unfold derivedFilename sanitizePilot amendedSanitizePilot
    rw [sanitizePilotL_eq]
  · decide

/-- C3: the min-score filter is applied before the per-flight detail-page
request: a listing row whose parsed score is absent or strictly below the
threshold never yields a `flightinfo` request, while a fresh candidate
row (id present, not already downloaded) whose score is at or above the
threshold always does. -/
theorem min_score_filter_before_detail_request :
    ∀ (downloaded : List String) (m : ℚ) (row : JsonRow),
      ((row.points = none ∨ ∃ p, row.points = some p ∧ p < m) →
        rowEmitsDetailRequest downloaded (some m) row = false ∧
        batchDetailRequests downloaded (some m) [row] = []) ∧
      (∀ (dsid : String) (p : ℚ),
        row.id = some dsid → dsid ≠ "" → dsid ∉ downloaded →
        row.points = some p → m ≤ p →
        rowEmitsDetailRequest downloaded (some m) row = true ∧
        batchDetailRequests downloaded (some m) [row] = [dsid]) := by
  intro downloaded m row
  constructor
  · intro h
    have he : rowEmitsDetailRequest downloaded (some m) row = false := by
      unfold rowEmitsDetailRequest
      cases hid : row.id with
      | none => rfl
      | some dsid =>
        rcases h with h | ⟨p, hp, hlt⟩
        · simp [h]
        · simp [hp, hlt]
    refine ⟨he, ?_⟩
    simp only [batchDetailRequests, List.filterMap_cons, List.filterMap_nil]
    rw [he]
    simp
  · intro dsid p hid hne hnotin hp hle
    have hemp : dsid.isEmpty = false := by
      cases he : dsid.isEmpty
      · rfl
      · exact absurd ((String.isEmpty_iff dsid).mp he) hne
    have hcont : downloaded.contains dsid = false := by
      simpa using hnotin
    have he : rowEmitsDetailRequest downloaded (some m) row = true := by
      unfold rowEmitsDetailRequest
      rw [hid]
      simp [hemp, hcont, hnotin, hp, not_lt.mpr hle]
    refine ⟨he, ?_⟩
    simp only [batchDetailRequests, List.filterMap_cons, List.filterMap_nil]
    rw [he, hid]
    simp

/-- C3 witness: with min-score 500, a row scoring 499.9 yields no detail
request and a fresh row scoring 500.0 yields exactly one. -/
theorem min_score_filter_witness :
    (rowEmitsDetailRequest [] (some 500) ⟨some "d1", some (4999/10)⟩ = false ∧
      batchDetailRequests [] (some 500) [⟨some "d1", some (4999/10)⟩] = []) ∧
    (rowEmitsDetailRequest [] (some 500) ⟨some "d2", some 500⟩ = true ∧
      batchDetailRequests [] (some 500) [⟨some "d2", some 500⟩] = ["d2"]) :=
  ⟨(min_score_filter_before_detail_request [] 500
      ⟨some "d1", some (4999/10)⟩).1
     (Or.inr ⟨4999/10, rfl, by norm_num⟩),
   (min_score_filter_before_detail_request [] 500 ⟨some "d2", some 500⟩).2
     "d2" 500 rfl (by decide) (by simp) rfl le_rfl⟩

theorem dlGo_timeouts (resp : Nat → Resp) (h : ∀ i, resp i = .timeout) :
    ∀ (fuel attempt : Nat) (sleeps : List Nat) (deleted : Nat),
      ∃ sl, dlGo resp attempt sleeps deleted fuel =
        ⟨.downloadFailed, attempt + fuel, sl, deleted, none⟩ := by
  intro fuel
  induction fuel with
  | zero =>
    intro attempt sleeps deleted
    exact ⟨sleeps, by simp [dlGo]⟩
  | succ n ih =>
    intro attempt sleeps deleted
    obtain ⟨sl, hsl⟩ :=
      ih (attempt + 1) (if attempt > 0 then sleeps ++ [2 ^ attempt] else sleeps)
        deleted
    have hadd : attempt + 1 + n = attempt + (n + 1) := by omega
    rw [hadd] at hsl
    refine ⟨sl, ?_⟩
    simp only [dlGo, h attempt]
    exact hsl

/-- C1: a response body carrying the rate-limit marker makes
`_download_file` raise `RateLimitError` on that very attempt (one attempt
used, no backoff, nothing retried), the error aborts all remaining files
of the run, and the run still ends in the summarized rate-limit-abort
state rather than an unhandled crash. -/
theorem rate_limit_abort_run (body : String) (f : Flight)
    (rest : List Flight) (fs : FS) (mr : Nat) (force : Bool)
    (hmark : hasRateLimitMarker body = true)
    (hresp : f.resp 0 = .html body)
    (habs : fs.lookup f.filename = none)
    (hmr : 0 < mr) :
    download_file f.resp mr = ⟨.rateLimited, 1, [], 0, none⟩ ∧
    download_flights mr force false (f :: rest) fs =
      .rateLimitAborted ⟨(f :: rest).length, 0, 0, 0⟩ fs ∧
    runDownloadCli mr force false (f :: rest) fs =
      .abortedSummarized ⟨(f :: rest).length, 0, 0, 0⟩ := by
  obtain ⟨n, rfl⟩ : ∃ n, mr = n + 1 := ⟨mr - 1, by omega⟩
  have hdl : download_file f.resp (n + 1) = ⟨.rateLimited, 1, [], 0, none⟩ := by
    simp [download_file, dlGo, hresp, hmark]
  have hrun : download_flights (n + 1) force false (f :: rest) fs =
      .rateLimitAborted ⟨(f :: rest).length, 0, 0, 0⟩ fs := by
    unfold download_flights
    simp only [Bool.false_eq_true, if_false, goFlights, habs, Option.isSome_none,
      Bool.false_and, hdl]
    rw [alErase_of_lookup_none fs f.filename habs]
  refine ⟨hdl, hrun, ?_⟩
  unfold runDownloadCli
  rw [hrun]

/-- C1 witness: a concrete run of three files whose first download answer
is the rate-limit HTML page. -/
theorem rate_limit_abort_run_witness :
    hasRateLimitMarker
        "You have reached the download limitation for today!" = true ∧
    (download_file (fun _ =>
        .html "You have reached the download limitation for today!") 3 =
      ⟨.rateLimited, 1, [], 0, none⟩ ∧
    download_flights 3 false false
        [⟨"a.igc", fun _ =>
            .html "You have reached the download limitation for today!"⟩,
         ⟨"b.igc", fun _ => .ok ["A header"]⟩,
         ⟨"c.igc", fun _ => .ok ["A header"]⟩] [] =
      .rateLimitAborted ⟨3, 0, 0, 0⟩ [] ∧
    runDownloadCli 3 false false
        [⟨"a.igc", fun _ =>
            .html "You have reached the download limitation for today!"⟩,
         ⟨"b.igc", fun _ => .ok ["A header"]⟩,
         ⟨"c.igc", fun _ => .ok ["A header"]⟩] [] =
      .abortedSummarized ⟨3, 0, 0, 0⟩) :=
  ⟨by decide,
   rate_limit_abort_run
     "You have reached the download limitation for today!"
     ⟨"a.igc", fun _ =>
        .html "You have reached the download limitation for today!"⟩
     [⟨"b.igc", fun _ => .ok ["A header"]⟩,
      ⟨"c.igc", fun _ => .ok ["A header"]⟩]
     [] 3 false (by decide) rfl rfl (by decide)⟩

/-- C4: without `force`, a pre-existing destination file whose first line
opens an HTML document is deleted and the flight is downloaded again
(counted as downloaded, not skipped), while a pre-existing file not
detected as HTML is kept and counted as skipped. -/
theorem existing_file_skip_or_replace :
    (∀ (fs : FS) (f : Flight) (rest : List Flight) (st : Stats)
        (force : Bool) (lines c : List String) (n : Nat),
      fs.lookup f.filename = some lines →
      isHtmlErrorFile lines = true →
      f.resp 0 = .ok c →
      validIgcContent c = true →
      goFlights (n + 1) force (f :: rest) fs st =
        goFlights (n + 1) force rest
          (alUpdate (alErase fs f.filename) f.filename c)
          { st with downloaded := st.downloaded + 1 }) ∧
    (∀ (fs : FS) (f : Flight) (rest : List Flight) (st : Stats)
        (lines : List String) (mr : Nat),
      fs.lookup f.filename = some lines →
      isHtmlErrorFile lines = false →
      goFlights mr false (f :: rest) fs st =
        goFlights mr false rest fs { st with skipped := st.skipped + 1 }) := by
  constructor
  · intro fs f rest st force lines c n hl hhtml hresp hval
    have hdl : download_file f.resp (n + 1) = ⟨.ok, 1, [], 0, some c⟩ := by
      simp [download_file, dlGo, hresp, hval]
    simp only [goFlights, hl, hhtml, if_true, lookup_alErase_self,
      Option.isSome_none, Bool.false_and, Bool.false_eq_true, if_false, hdl,
      Option.getD_some]
  · intro fs f rest st lines mr hl hhtml
    simp only [goFlights, hl, hhtml, Bool.false_eq_true, if_false,
      Option.isSome_some, Bool.not_false, Bool.and_true, if_true]

/-- C4 witness: a stored `<!DOCTYPE html>` file is replaced by a fresh
download, and a stored valid IGC file is kept and counted as skipped. -/
theorem existing_file_skip_or_replace_witness :
    ([("a.igc", ["<!DOCTYPE html>"])] : FS).lookup "a.igc" =
        some ["<!DOCTYPE html>"] ∧
    isHtmlErrorFile ["<!DOCTYPE html>"] = true ∧
    validIgcContent ["A header"] = true ∧
    isHtmlErrorFile ["AXYZ flight log"] = false ∧
    (goFlights 3 false [⟨"a.igc", fun _ => .ok ["A header"]⟩]
        [("a.igc", ["<!DOCTYPE html>"])] ⟨1, 0, 0, 0⟩ =
      goFlights 3 false []
        (alUpdate (alErase [("a.igc", ["<!DOCTYPE html>"])] "a.igc")
          "a.igc" ["A header"]) ⟨1, 1, 0, 0⟩) ∧
    (goFlights 3 false [⟨"b.igc", fun _ => .timeout⟩]
        [("b.igc", ["AXYZ flight log"])] ⟨1, 0, 0, 0⟩ =
      goFlights 3 false [] [("b.igc", ["AXYZ flight log"])] ⟨1, 0, 1, 0⟩) :=
  ⟨by decide, by decide, by decide, by decide,
   (existing_file_skip_or_replace).1 [("a.igc", ["<!DOCTYPE html>"])]
     ⟨"a.igc", fun _ => .ok ["A header"]⟩ [] ⟨1, 0, 0, 0⟩ false
     ["<!DOCTYPE html>"] ["A header"] 2 (by decide) (by decide) rfl (by decide),
   (existing_file_skip_or_replace).2 [("b.igc", ["AXYZ flight log"])]
     ⟨"b.igc", fun _ => .timeout⟩ [] ⟨1, 0, 0, 0⟩
     ["AXYZ flight log"] 3 (by decide) (by decide)⟩

/-- C5: a download whose first two attempts fail post-download validation
and whose third attempt validates reports one more `downloaded` (never
`failed`), deletes the two invalid files, and sleeps the exponential
backoff `2 ^ attempt` seconds before each retry. -/
theorem retry_validation_then_success :
    ∀ (fs : FS) (f : Flight) (rest : List Flight) (st : Stats) (force : Bool)
      (c0 c1 c2 : List String),
      f.resp 0 = .ok c0 → validIgcContent c0 = false →
      f.resp 1 = .ok c1 → validIgcContent c1 = false →
      f.resp 2 = .ok c2 → validIgcContent c2 = true →
      fs.lookup f.filename = none →
      download_file f.resp 3 = ⟨.ok, 3, [2 ^ 1, 2 ^ 2], 2, some c2⟩ ∧
      goFlights 3 force (f :: rest) fs st =
        goFlights 3 force rest (alUpdate fs f.filename c2)
          { st with downloaded := st.downloaded + 1 } := by
  intro fs f rest st force c0 c1 c2 h0 hv0 h1 hv1 h2 hv2 habs
  have hdl : download_file f.resp 3 = ⟨.ok, 3, [2 ^ 1, 2 ^ 2], 2, some c2⟩ := by
    simp [download_file, dlGo, h0, h1, h2, hv0, hv1, hv2]
  refine ⟨hdl, ?_⟩
  simp only [goFlights, habs, Option.isSome_none, Bool.false_and,
    Bool.false_eq_true, if_false, hdl, Option.getD_some]

/-- C5 witness: concrete responses failing validation twice before a
valid third body. -/
theorem retry_validation_then_success_witness :
    validIgcContent ["<!DOCTYPE html>"] = false ∧
    validIgcContent ["garbage"] = false ∧
    validIgcContent ["A header"] = true ∧
    (download_file
        (fun i => if i = 0 then .ok ["<!DOCTYPE html>"]
          else if i = 1 then .ok ["garbage"] else .ok ["A header"]) 3 =
      ⟨.ok, 3, [2 ^ 1, 2 ^ 2], 2, some ["A header"]⟩ ∧
    goFlights 3 false
        [⟨"a.igc", fun i => if i = 0 then .ok ["<!DOCTYPE html>"]
            else if i = 1 then .ok ["garbage"] else .ok ["A header"]⟩] []
        ⟨1, 0, 0, 0⟩ =
      goFlights 3 false [] (alUpdate [] "a.igc" ["A header"]) ⟨1, 1, 0, 0⟩) :=
  ⟨by decide, by decide, by decide,
   retry_validation_then_success []
     ⟨"a.igc", fun i => if i = 0 then .ok ["<!DOCTYPE html>"]
        else if i = 1 then .ok ["garbage"] else .ok ["A header"]⟩
     [] ⟨1, 0, 0, 0⟩ false ["<!DOCTYPE html>"] ["garbage"] ["A header"]
     rfl (by decide) rfl (by decide) rfl (by decide) rfl⟩

/-- C6: when every attempt of a file fails and the retry budget is
exhausted, nothing is left on disk, the file is counted as failed and the
loop moves on to the next file — in contrast with the rate-limit case,
which aborts the whole run. -/
theorem exhausted_retries_continue :
    ∀ (fs : FS) (f : Flight) (rest : List Flight) (st : Stats)
      (force : Bool) (mr : Nat) (g : Flight) (body : String),
      (∀ i, f.resp i = .timeout) →
      fs.lookup f.filename = none →
      (((download_file f.resp mr).outcome = .downloadFailed ∧
          (download_file f.resp mr).attemptsUsed = mr ∧
          (download_file f.resp mr).written = none) ∧
        goFlights mr force (f :: rest) fs st =
          goFlights mr force rest fs { st with failed := st.failed + 1 }) ∧
      (hasRateLimitMarker body = true → g.resp 0 = .html body →
        fs.lookup g.filename = none → 0 < mr →
        goFlights mr force (g :: rest) fs st = .rateLimitAborted st fs) := by
  intro fs f rest st force mr g body htime habs
  obtain ⟨sl, hsl⟩ := dlGo_timeouts f.resp htime mr 0 [] 0
  rw [Nat.zero_add] at hsl
  have hdl : download_file f.resp mr = ⟨.downloadFailed, mr, sl, 0, none⟩ := hsl
  constructor
  · refine ⟨⟨by rw [hdl], by rw [hdl], by rw [hdl]⟩, ?_⟩
    simp only [goFlights, habs, Option.isSome_none, Bool.false_and,
      Bool.false_eq_true, if_false, hdl]
    rw [alErase_of_lookup_none fs f.filename habs]
  · intro hmark hresp habsg hmr
    obtain ⟨n, rfl⟩ : ∃ n, mr = n + 1 := ⟨mr - 1, by omega⟩
    have hdlg : download_file g.resp (n + 1) =
        ⟨.rateLimited, 1, [], 0, none⟩ := by
      simp [download_file, dlGo, hresp, hmark]
    simp only [goFlights, habsg, Option.isSome_none, Bool.false_and,
      Bool.false_eq_true, if_false, hdlg]
    rw [alErase_of_lookup_none fs g.filename habsg]

/-- C6 witness: a file that times out on every attempt against the
default three-attempt budget, followed by one more file, versus a
rate-limited file. -/
theorem exhausted_retries_continue_witness :
    (((download_file (fun _ => .timeout) 3).outcome = .downloadFailed ∧
        (download_file (fun _ => .timeout) 3).attemptsUsed = 3 ∧
        (download_file (fun _ => .timeout) 3).written = none) ∧
      goFlights 3 false
          [⟨"t.igc", fun _ => .timeout⟩, ⟨"u.igc", fun _ => .ok ["A h"]⟩]
          [] ⟨2, 0, 0, 0⟩ =
        goFlights 3 false [⟨"u.igc", fun _ => .ok ["A h"]⟩] []
          ⟨2, 0, 0, 1⟩) ∧
    (goFlights 3 false
        [⟨"r.igc", fun _ => .html "the downloadlimit was reached"⟩,
         ⟨"u.igc", fun _ => .ok ["A h"]⟩] [] ⟨2, 0, 0, 0⟩ =
      .rateLimitAborted ⟨2, 0, 0, 0⟩ []) := by
  have h := exhausted_retries_continue [] ⟨"t.igc", fun _ => .timeout⟩
    [⟨"u.igc", fun _ => .ok ["A h"]⟩] ⟨2, 0, 0, 0⟩ false 3
    ⟨"r.igc", fun _ => .html "the downloadlimit was reached"⟩
    "the downloadlimit was reached" (fun _ => rfl) rfl
  exact ⟨h.1, h.2 (by decide) rfl rfl (by decide)⟩

end Spec2Proof
